import Mathlib

/-! Verification development for the Experiment Notebook program
(`experiment_notebook.py`): a lab-notebook utility that collects
experiment details from interactive prompts, appends the record to a
JSON log file, and renders the record as a PDF and a Word document.

The Python source is shallowly embedded below:
* JSON values are modelled by the inductive `Json`; the file system by
  `FS`, a map from paths to `FileContent` (absent, undecodable, or a
  parsed JSON value — the three cases `load_experiments` distinguishes).
* `get_input_list` consumes an explicit input stream (a list of the
  strings the user would type), returning the collected items and the
  rest of the stream, or `none` if the stream ends before the loop does.
* The two report generators return the ordered list of primitive
  rendering calls they would issue (`PdfElem` / `DocxElem`), paired with
  the output file name.
* The orchestrator `log_experiment` threads the file system through the
  six steps and takes a failure oracle `fails : Step → Bool` modelling
  an uncaught exception at each step (the Python code catches nothing,
  so a failure aborts every remaining step).
-/

namespace ExperimentNotebook

/-- JSON values, as produced by Python's `json` module: the log file
holds one such value (a list of experiment dicts). Object fields are an
ordered association list, since Python dicts preserve insertion order
and `json.dump` serializes fields in that order. -/
inductive Json where
  | null : Json
  | bool (b : Bool) : Json
  | num (n : Int) : Json
  | str (s : String) : Json
  | arr (elems : List Json) : Json
  | obj (fields : List (String × Json)) : Json

/-- What `load_experiments` can find at a path: no file
(`os.path.exists` is false), a file whose content raises
`json.JSONDecodeError`, or a file whose content parses to a JSON
value. -/
inductive FileContent where
  | missing : FileContent
  | invalidJson : FileContent
  | content (j : Json) : FileContent

/-- The file system visible to the log store: one content per path. -/
def FS : Type := String → FileContent

/-- One experiment record, with the fields built by
`get_experiment_details` in their dict insertion order. -/
structure Record where
  title : String
  experiment_id : String
  date : String
  experimenter : String
  project : String
  chemicals : List String
  equipment : List String
  procedure : List String
  observations : String
  results : String
deriving DecidableEq, Repr

/-- The JSON object `json.dump` writes for one experiment dict: the ten
fields in the insertion order of the dict literal in
`get_experiment_details`. -/
def encodeRecord (r : Record) : Json :=
  Json.obj
    [ ("title", Json.str r.title)
    , ("experiment_id", Json.str r.experiment_id)
    , ("date", Json.str r.date)
    , ("experimenter", Json.str r.experimenter)
    , ("project", Json.str r.project)
    , ("chemicals", Json.arr (r.chemicals.map Json.str))
    , ("equipment", Json.arr (r.equipment.map Json.str))
    , ("procedure", Json.arr (r.procedure.map Json.str))
    , ("observations", Json.str r.observations)
    , ("results", Json.str r.results) ]

/-- Function `load_experiments(filepath)`: if the file exists and its content
parses to a JSON list, return that list's elements; on a missing file,
a decode error, or a non-list top-level value, return `[]`. -/
def load_experiments (filepath : String) (fs : FS) : List Json :=
  match fs filepath with
  | FileContent.missing => []
  | FileContent.invalidJson => []
  | FileContent.content data =>
    match data with
    | Json.arr l => l
    | _ => []

/-- Function `save_experiments(experiments, filepath)`: overwrite the file at
`filepath` with the JSON array of the given experiments. -/
def save_experiments (experiments : List Json) (filepath : String) (fs : FS) : FS :=
  fun p => if p = filepath then FileContent.content (Json.arr experiments) else fs p

theorem load_save (experiments : List Json) (filepath : String) (fs : FS) :
    load_experiments filepath (save_experiments experiments filepath fs) = experiments := by
  simp [load_experiments, save_experiments]

/-- Claim C1. Round-trip: after `save(R, p)` then `save(load(p), p2)`,
`load(p2)` returns exactly the JSON encodings of the records of `R`, in
order — and since `encodeRecord` is injective (last conjunct), the
loaded sequence is field-for-field equal to `R`. -/
theorem save_load_roundtrip (R : List Record) (p p2 : String) (fs : FS) :
    (load_experiments p2
        (save_experiments
          (load_experiments p (save_experiments (R.map encodeRecord) p fs))
          p2 (save_experiments (R.map encodeRecord) p fs))
      = R.map encodeRecord)
    ∧ (∀ r1 r2 : Record, encodeRecord r1 = encodeRecord r2 → r1 = r2) := by
  constructor
  · rw [load_save, load_save]
  · intro r1 r2 h
    cases r1; cases r2
    simp only [encodeRecord, Json.obj.injEq, List.cons.injEq, Prod.mk.injEq,
      Json.str.injEq, Json.arr.injEq, true_and, and_true] at h
    have inj : Function.Injective Json.str := fun a b hab => Json.str.inj hab
    obtain ⟨h1, h2, h3, h4, h5, h6, h7, h8, h9, h10⟩ := h
    simp only [Record.mk.injEq]
    exact ⟨h1, h2, h3, h4, h5, List.map_injective_iff.mpr inj h6,
      List.map_injective_iff.mpr inj h7, List.map_injective_iff.mpr inj h8, h9, h10⟩

/-- Witness for C1 at a concrete one-record sequence and concrete
paths: the double round-trip returns the encoded sequence, and the
injectivity conjunct applied at that record is discharged. -/
theorem save_load_roundtrip_witness :
    load_experiments "p2"
        (save_experiments
          (load_experiments "p"
            (save_experiments
              ([⟨"T", "EXP-1", "d", "Jane", "P1", ["NaCl (5g)"], ["Beaker"], ["Mix"],
                  "clear", "ok"⟩].map encodeRecord) "p" (fun _ => FileContent.missing)))
          "p2"
          (save_experiments
            ([⟨"T", "EXP-1", "d", "Jane", "P1", ["NaCl (5g)"], ["Beaker"], ["Mix"],
                "clear", "ok"⟩].map encodeRecord) "p" (fun _ => FileContent.missing)))
      = [(⟨"T", "EXP-1", "d", "Jane", "P1", ["NaCl (5g)"], ["Beaker"], ["Mix"],
          "clear", "ok"⟩ : Record)].map encodeRecord :=
  (save_load_roundtrip
    [⟨"T", "EXP-1", "d", "Jane", "P1", ["NaCl (5g)"], ["Beaker"], ["Mix"], "clear", "ok"⟩]
    "p" "p2" (fun _ => FileContent.missing)).1

/-- Claim C2. `load_experiments` returns `[]` on a missing file, on a
file that fails JSON decoding, and on a file whose top-level JSON value
is not an array; on a file holding a JSON array it returns exactly that
array's elements (same length, same values). -/
theorem load_experiments_cases (fs : FS) (path : String) :
    (fs path = FileContent.missing → load_experiments path fs = [])
    ∧ (fs path = FileContent.invalidJson → load_experiments path fs = [])
    ∧ (∀ j : Json, fs path = FileContent.content j → (∀ l, j ≠ Json.arr l) →
        load_experiments path fs = [])
    ∧ (∀ l : List Json, fs path = FileContent.content (Json.arr l) →
        load_experiments path fs = l ∧ (load_experiments path fs).length = l.length) := by
  refine ⟨fun h => by simp [load_experiments, h],
          fun h => by simp [load_experiments, h], ?_, ?_⟩
  · intro j hj hne
    cases j with
    | arr l => exact absurd rfl (hne l)
    | null => simp [load_experiments, hj]
    | bool b => simp [load_experiments, hj]
    | num n => simp [load_experiments, hj]
    | str s => simp [load_experiments, hj]
    | obj f => simp [load_experiments, hj]
  · intro l hl
    simp [load_experiments, hl]

/-- Witness for C2 at a concrete file system: a missing file loads as
the empty list. -/
theorem load_experiments_cases_witness :
    load_experiments "experiment_log.json" (fun _ => FileContent.missing) = [] :=
  (load_experiments_cases (fun _ => FileContent.missing) "experiment_log.json").1 rfl

/-- Function `get_input_list(prompt, detail_prompt)`: consume responses from the
input stream until an empty response to the item prompt. With
`hasDetail = true` (a `detail_prompt` was supplied) each non-empty item
is followed by one detail response and stored as `"<item> (<detail>)"`.
Returns the collected items together with the unconsumed rest of the
stream; `none` models the stream running dry while the loop still asks
for input (in the real program `input()` would block there, so every
terminating run corresponds to a `some` result). -/
def get_input_list (hasDetail : Bool) : List String → Option (List String × List String)
  | [] => none
  | item :: rest =>
    if item = "" then some ([], rest)
    else if hasDetail then
      match rest with
      | [] => none
      | detail :: rest2 =>
        match get_input_list hasDetail rest2 with
        | none => none
        | some (items, rem) => some ((item ++ " (" ++ detail ++ ")") :: items, rem)
    else
      match get_input_list hasDetail rest with
      | none => none
      | some (items, rem) => some (item :: items, rem)

theorem get_input_list_eq_nil (b : Bool) : get_input_list b [] = none := by
  rw [get_input_list.eq_def]

theorem get_input_list_eq_cons (b : Bool) (item : String) (rest : List String) :
    get_input_list b (item :: rest)
      = (if item = "" then some ([], rest)
         else if b then
           match rest with
           | [] => none
           | detail :: rest2 =>
             match get_input_list b rest2 with
             | none => none
             | some (items, rem) => some ((item ++ " (" ++ detail ++ ")") :: items, rem)
         else
           match get_input_list b rest with
           | none => none
           | some (items, rem) => some (item :: items, rem)) := by
  rw [get_input_list.eq_def]

/-- The input stream a user produces by answering the chemical prompt
with `names[i]` and the amount prompt with `amounts[i]`, for each `i`
in order. -/
def promptStream : List String → List String → List String
  | n :: ns, a :: ams => n :: a :: promptStream ns ams
  | _, _ => []

/-- Claim C3. For any run of the chemicals loop — non-empty names each
followed by an amount, terminated by an empty line — the collected list
pairs each name with its amount as `"<name> (<amount>)"`, in entry
order, and its length is the number of non-empty name entries. -/
theorem get_input_list_chemicals (names amounts rest : List String)
    (hlen : names.length = amounts.length)
    (hne : ∀ n ∈ names, n ≠ "") :
    get_input_list true (promptStream names amounts ++ "" :: rest)
      = some (List.zipWith (fun n a => n ++ " (" ++ a ++ ")") names amounts, rest)
    ∧ (List.zipWith (fun n a => n ++ " (" ++ a ++ ")") names amounts).length
        = names.length := by
  constructor
  · induction names generalizing amounts with
    | nil =>
      cases amounts with
      | nil =>
        simp only [promptStream, List.nil_append, List.zipWith_nil_left]
        rw [get_input_list_eq_cons]
        simp
      | cons a ams => simp at hlen
    | cons n ns ih =>
      cases amounts with
      | nil => simp at hlen
      | cons a ams =>
        have hn : n ≠ "" := hne n (List.mem_cons_self n ns)
        have hrec := (ih ams (by simpa using hlen)
          (fun m hm => hne m (List.mem_cons_of_mem n hm)))
        simp only [promptStream, List.cons_append, List.zipWith_cons_cons]
        rw [get_input_list_eq_cons]
        simp [hn, hrec]
  · rw [List.length_zipWith, hlen, min_self]

/-- Witness for C3: entering NaCl/5g then H2O/100ml then an empty line
collects exactly the two formatted entries and leaves the rest of the
stream untouched. -/
theorem get_input_list_chemicals_witness :
    (["NaCl", "H2O"] : List String).length = (["5g", "100ml"] : List String).length
    ∧ (∀ n ∈ (["NaCl", "H2O"] : List String), n ≠ "")
    ∧ get_input_list true (promptStream ["NaCl", "H2O"] ["5g", "100ml"] ++ "" :: ["tail"])
        = some (List.zipWith (fun n a => n ++ " (" ++ a ++ ")") ["NaCl", "H2O"] ["5g", "100ml"],
            ["tail"]) :=
  ⟨rfl, by decide,
    (get_input_list_chemicals ["NaCl", "H2O"] ["5g", "100ml"] ["tail"] rfl (by decide)).1⟩

/-- Claim C10. In the chemicals loop only an empty response to the item
prompt terminates the loop; an empty response to the amount prompt is
accepted and the item is kept as `"<item> ()"` — the loop neither skips
nor re-prompts such an item. -/
theorem get_input_list_empty_amount (item amount : String) (rest : List String)
    (hitem : item ≠ "") :
    get_input_list true ("" :: rest) = some ([], rest)
    ∧ get_input_list true (item :: amount :: rest)
        = (get_input_list true rest).map
            (fun p => ((item ++ " (" ++ amount ++ ")") :: p.1, p.2))
    ∧ get_input_list true (item :: "" :: "" :: rest) = some ([item ++ " ()"], rest) := by
  refine ⟨by rw [get_input_list_eq_cons]; simp, ?_, ?_⟩
  · rw [get_input_list_eq_cons]
    simp only [hitem, if_false, if_true, ite_true, ite_false]
    cases h : get_input_list true rest with
    | none => simp [h]
    | some p => simp [h]
  · rw [get_input_list_eq_cons]
    simp only [hitem, if_false, if_true, ite_true, ite_false]
    rw [get_input_list_eq_cons]
    have h2 : (" (" ++ ")" : String) = " ()" := by decide
    have hs : item ++ " (" ++ ")" = item ++ " ()" := by
      rw [String.append_assoc, h2]
    simp [hs]

/-- Witness for C10: the concrete item NaCl with an empty amount is
stored as `"NaCl ()"` and an empty item ends the loop. -/
theorem get_input_list_empty_amount_witness :
    ("NaCl" : String) ≠ ""
    ∧ get_input_list true ["NaCl", "", "", "x"] = some (["NaCl ()"], ["x"]) :=
  ⟨by decide, (get_input_list_empty_amount "NaCl" "5g" ["x"] (by decide)).2.2⟩

/-! Section: the report renderers.

Each renderer is embedded as the ordered list of primitive library
calls it issues. A `PdfElem.cell` records the `pdf.cell` arguments that
vary in the source (width, height, text, fill flag, line-break flag;
`border=1` on every call is omitted as constant), `multiCell` records
`pdf.multi_cell`, and `lnBreak` records `pdf.ln`. A `DocxElem` records
one `python-docx` call: a heading with its level, the single
field/value table with its style, a paragraph with its optional list
style, or the bare spacer paragraph. -/

inductive PdfElem where
  | cell (width height : Nat) (text : String) (fill lnArg : Bool)
  | multiCell (width height : Nat) (text : String)
  | lnBreak (h : Nat)
deriving DecidableEq, Repr

inductive DocxElem where
  | heading (text : String) (level : Nat)
  | table (style : String) (top : String × String) (rows : List (String × String))
  | paragraph (text : String) (style : Option String)
  | spacer
deriving DecidableEq, Repr

/-- The texts of one list section's rows, following the loop
`for i, item in enumerate(items, start=1)` shared by both renderers:
a numbered row gets the text `"<i>. <item>"`, a bulleted row
`"- <item>"`. -/
def listRowTexts (numbered : Bool) : Nat → List String → List String
  | _, [] => []
  | i, item :: items =>
    (if numbered then toString i ++ ". " ++ item else "- " ++ item)
      :: listRowTexts numbered (i + 1) items

/-- The five identity rows shared by both renderers, in source order. -/
def identityFields (e : Record) : List (String × String) :=
  [ ("Title", e.title)
  , ("Experiment ID", e.experiment_id)
  , ("Date", e.date)
  , ("Experimenter", e.experimenter)
  , ("Project", e.project) ]

/-- Helper `add_list_table` inside `generate_pdf_report`: emit nothing when
the list is empty, otherwise a filled title cell, one full-width cell
per row (numbered or bulleted), and a 5-unit line break. -/
def generate_pdf_report.add_list_table
    (title : String) (items : List String) (numbered : Bool) : List PdfElem :=
  if items = [] then []
  else PdfElem.cell 0 10 title true true
    :: ((listRowTexts numbered 1 items).map (fun t => PdfElem.cell 0 10 t false true)
        ++ [PdfElem.lnBreak 5])

/-- Helper `add_text_section` inside `generate_pdf_report`: emit nothing when
the text is empty, otherwise a filled title cell, a multi-line cell
with the full text, and a 5-unit line break. -/
def generate_pdf_report.add_text_section (title text : String) : List PdfElem :=
  if text = "" then []
  else [PdfElem.cell 0 10 title true true, PdfElem.multiCell 0 10 text, PdfElem.lnBreak 5]

/-- Function `generate_pdf_report(experiment, timestamp)`: the PDF rendering
calls in source order, paired with the output file name. The renderer
receives the experiment dict built by `get_experiment_details`, which
always carries all ten fields, so the dict lookups
(`experiment["title"]`, `experiment.get("chemicals", [])`, …) are the
record's fields. -/
def generate_pdf_report (experiment : Record) (timestamp : String) :
    List PdfElem × String :=
  ( [PdfElem.cell 50 10 "Field" true false, PdfElem.cell 130 10 "Value" true true]
    ++ (identityFields experiment).flatMap
        (fun fv => [PdfElem.cell 50 10 fv.1 false false, PdfElem.cell 130 10 fv.2 false true])
    ++ [PdfElem.lnBreak 10]
    ++ generate_pdf_report.add_list_table "Chemicals Used" experiment.chemicals false
    ++ generate_pdf_report.add_list_table "Equipment Used" experiment.equipment false
    ++ generate_pdf_report.add_list_table "Procedure" experiment.procedure true
    ++ generate_pdf_report.add_text_section "Observations" experiment.observations
    ++ generate_pdf_report.add_text_section "Results" experiment.results
  , "experiment_report_" ++ timestamp ++ ".pdf" )

/-- Helper `add_list_section` inside `generate_word_report`: emit nothing when
the list is empty, otherwise a level-2 heading and one styled paragraph
per row (`List Number` when numbered, `List Bullet` otherwise). -/
def generate_word_report.add_list_section
    (title : String) (items : List String) (numbered : Bool) : List DocxElem :=
  if items = [] then []
  else DocxElem.heading title 2
    :: (listRowTexts numbered 1 items).map
        (fun t => DocxElem.paragraph t
          (some (if numbered then "List Number" else "List Bullet")))

/-- Helper `add_text_section` inside `generate_word_report`: emit nothing when
the text is empty, otherwise a level-2 heading and a plain paragraph. -/
def generate_word_report.add_text_section (title text : String) : List DocxElem :=
  if text = "" then []
  else [DocxElem.heading title 2, DocxElem.paragraph text none]

/-- Function `generate_word_report(experiment, timestamp)`: the Word rendering
calls in source order, paired with the output file name. -/
def generate_word_report (experiment : Record) (timestamp : String) :
    List DocxElem × String :=
  ( [ DocxElem.heading "Experiment Report" 1
    , DocxElem.table "LightShading-Accent1" ("Field", "Value") (identityFields experiment)
    , DocxElem.spacer ]
    ++ generate_word_report.add_list_section "Chemicals Used" experiment.chemicals false
    ++ generate_word_report.add_list_section "Equipment Used" experiment.equipment false
    ++ generate_word_report.add_list_section "Procedure" experiment.procedure true
    ++ generate_word_report.add_text_section "Observations" experiment.observations
    ++ generate_word_report.add_text_section "Results" experiment.results
  , "experiment_report_" ++ timestamp ++ ".docx" )

/-! Section: the common abstract document structure.

Following the spec's words (§4.4, "Common structure (apply identically
to both output formats)"), an abstract document is a sequence of shaded
header cells, plain row cells, and free-text blocks; purely visual
output (line breaks, the spacer paragraph, the Word document's own
level-1 title heading) and styling data (cell widths, fill colors,
table/paragraph style names) are erased. -/

inductive AbsItem where
  | hcell (text : String)
  | tcell (text : String)
  | block (text : String)
deriving DecidableEq, Repr

/-- Styling-erasure of one PDF call: a filled cell is a header cell, an
unfilled cell a row cell, a multi-line cell a text block, a line break
nothing. -/
def absPdfElem : PdfElem → List AbsItem
  | PdfElem.cell _ _ t fill _ => if fill then [AbsItem.hcell t] else [AbsItem.tcell t]
  | PdfElem.multiCell _ _ t => [AbsItem.block t]
  | PdfElem.lnBreak _ => []

def pdfAbstract (l : List PdfElem) : List AbsItem := l.flatMap absPdfElem

/-- Styling-erasure of one Word call: a level-2 heading is a section
header cell, the table contributes its shaded top row as header cells
and its body rows as row cells, a styled (list) paragraph is a row
cell, an unstyled paragraph a text block; the level-1 document title
and the spacer are format-specific and erased. -/
def absDocxElem : DocxElem → List AbsItem
  | DocxElem.heading t level => if level = 2 then [AbsItem.hcell t] else []
  | DocxElem.table _ top rows =>
      AbsItem.hcell top.1 :: AbsItem.hcell top.2
        :: rows.flatMap (fun r => [AbsItem.tcell r.1, AbsItem.tcell r.2])
  | DocxElem.paragraph t (some _) => [AbsItem.tcell t]
  | DocxElem.paragraph t none => [AbsItem.block t]
  | DocxElem.spacer => []

def docxAbstract (l : List DocxElem) : List AbsItem := l.flatMap absDocxElem

/-- Abstract form of one list section, per the spec: a header followed
by one row per item, omitted when empty. -/
def listSection (title : String) (rows : List String) : List AbsItem :=
  if rows = [] then [] else AbsItem.hcell title :: rows.map AbsItem.tcell

/-- Abstract form of one free-text section, per the spec. -/
def textSection (title text : String) : List AbsItem :=
  if text = "" then [] else [AbsItem.hcell title, AbsItem.block text]

/-- Abstract form of the Field/Value identity section. -/
def identityAbs (e : Record) : List AbsItem :=
  AbsItem.hcell "Field" :: AbsItem.hcell "Value"
    :: (identityFields e).flatMap (fun fv => [AbsItem.tcell fv.1, AbsItem.tcell fv.2])

/-- The whole abstract document of a record, per the spec's common
structure: identity section, then the three list sections, then the
two text sections. -/
def absDoc (e : Record) : List AbsItem :=
  identityAbs e
    ++ listSection "Chemicals Used" (listRowTexts false 1 e.chemicals)
    ++ listSection "Equipment Used" (listRowTexts false 1 e.equipment)
    ++ listSection "Procedure" (listRowTexts true 1 e.procedure)
    ++ textSection "Observations" e.observations
    ++ textSection "Results" e.results

theorem listRowTexts_eq_nil_iff (b : Bool) (i : Nat) (l : List String) :
    listRowTexts b i l = [] ↔ l = [] := by
  cases l <;> simp [listRowTexts]

theorem listRowTexts_false_eq (i : Nat) (l : List String) :
    listRowTexts false i l = l.map (fun s => "- " ++ s) := by
  induction l generalizing i with
  | nil => simp [listRowTexts]
  | cons x xs ih => simp [listRowTexts, ih]

theorem listRowTexts_length (b : Bool) (i : Nat) (l : List String) :
    (listRowTexts b i l).length = l.length := by
  induction l generalizing i with
  | nil => simp [listRowTexts]
  | cons x xs ih => simp [listRowTexts, ih]

theorem listRowTexts_true_getElem (l : List String) (i j : Nat) (x : String)
    (h : l[j]? = some x) :
    (listRowTexts true i l)[j]? = some (toString (i + j) ++ ". " ++ x) := by
  induction l generalizing i j with
  | nil => simp at h
  | cons y ys ih =>
    cases j with
    | zero =>
      simp at h
      simp [listRowTexts, h]
    | succ k =>
      simp only [List.getElem?_cons_succ] at h
      have h2 := ih (i + 1) k h
      simp only [listRowTexts, List.getElem?_cons_succ]
      rw [show i + (k + 1) = i + 1 + k from by omega]
      exact h2

theorem pdfAbstract_cons (a : PdfElem) (l : List PdfElem) :
    pdfAbstract (a :: l) = absPdfElem a ++ pdfAbstract l := rfl

theorem docxAbstract_cons (a : DocxElem) (l : List DocxElem) :
    docxAbstract (a :: l) = absDocxElem a ++ docxAbstract l := rfl

theorem pdfAbstract_append (l1 l2 : List PdfElem) :
    pdfAbstract (l1 ++ l2) = pdfAbstract l1 ++ pdfAbstract l2 := by
  induction l1 with
  | nil => rfl
  | cons x xs ih => simp [pdfAbstract_cons, ih]

theorem docxAbstract_append (l1 l2 : List DocxElem) :
    docxAbstract (l1 ++ l2) = docxAbstract l1 ++ docxAbstract l2 := by
  induction l1 with
  | nil => rfl
  | cons x xs ih => simp [docxAbstract_cons, ih]

theorem pdfAbstract_row_cells (l : List String) :
    pdfAbstract (l.map (fun t => PdfElem.cell 0 10 t false true)) = l.map AbsItem.tcell := by
  induction l with
  | nil => rfl
  | cons x xs ih => simp [pdfAbstract_cons, absPdfElem, ih]

theorem docxAbstract_row_paragraphs (st : String) (l : List String) :
    docxAbstract (l.map (fun t => DocxElem.paragraph t (some st))) = l.map AbsItem.tcell := by
  induction l with
  | nil => rfl
  | cons x xs ih => simp [docxAbstract_cons, absDocxElem, ih]

theorem pdfAbstract_add_list_table (title : String) (items : List String) (numbered : Bool) :
    pdfAbstract (generate_pdf_report.add_list_table title items numbered)
      = listSection title (listRowTexts numbered 1 items) := by
  by_cases h : items = []
  · simp [generate_pdf_report.add_list_table, listSection, pdfAbstract, h, listRowTexts]
  · have hrows : listRowTexts numbered 1 items ≠ [] := by
      simpa [listRowTexts_eq_nil_iff] using h
    simp only [generate_pdf_report.add_list_table, listSection]
    rw [if_neg h, if_neg hrows]
    rw [pdfAbstract_cons, pdfAbstract_append, pdfAbstract_row_cells]
    simp [pdfAbstract, absPdfElem]

theorem pdfAbstract_add_text_section (title text : String) :
    pdfAbstract (generate_pdf_report.add_text_section title text)
      = textSection title text := by
  by_cases h : text = "" <;>
    simp [generate_pdf_report.add_text_section, textSection, pdfAbstract, h, absPdfElem]

theorem docxAbstract_add_list_section (title : String) (items : List String) (numbered : Bool) :
    docxAbstract (generate_word_report.add_list_section title items numbered)
      = listSection title (listRowTexts numbered 1 items) := by
  by_cases h : items = []
  · simp [generate_word_report.add_list_section, listSection, docxAbstract, h, listRowTexts]
  · have hrows : listRowTexts numbered 1 items ≠ [] := by
      simpa [listRowTexts_eq_nil_iff] using h
    simp only [generate_word_report.add_list_section, listSection]
    rw [if_neg h, if_neg hrows]
    rw [docxAbstract_cons, docxAbstract_row_paragraphs]
    simp [absDocxElem]

theorem docxAbstract_add_text_section (title text : String) :
    docxAbstract (generate_word_report.add_text_section title text)
      = textSection title text := by
  by_cases h : text = "" <;>
    simp [generate_word_report.add_text_section, textSection, docxAbstract, h, absDocxElem]

theorem pdfAbstract_render (e : Record) (ts : String) :
    pdfAbstract (generate_pdf_report e ts).1 = absDoc e := by
  show pdfAbstract
      ( [PdfElem.cell 50 10 "Field" true false, PdfElem.cell 130 10 "Value" true true]
        ++ (identityFields e).flatMap
            (fun fv => [PdfElem.cell 50 10 fv.1 false false, PdfElem.cell 130 10 fv.2 false true])
        ++ [PdfElem.lnBreak 10]
        ++ generate_pdf_report.add_list_table "Chemicals Used" e.chemicals false
        ++ generate_pdf_report.add_list_table "Equipment Used" e.equipment false
        ++ generate_pdf_report.add_list_table "Procedure" e.procedure true
        ++ generate_pdf_report.add_text_section "Observations" e.observations
        ++ generate_pdf_report.add_text_section "Results" e.results) = absDoc e
  rw [pdfAbstract_append, pdfAbstract_append, pdfAbstract_append, pdfAbstract_append,
    pdfAbstract_append, pdfAbstract_append, pdfAbstract_append,
    pdfAbstract_add_list_table, pdfAbstract_add_list_table, pdfAbstract_add_list_table,
    pdfAbstract_add_text_section, pdfAbstract_add_text_section]
  simp only [absDoc, identityAbs, identityFields, pdfAbstract, absPdfElem, List.flatMap_cons,
    List.flatMap_nil, List.append_assoc, List.append_nil, List.nil_append]
  rfl

theorem docxAbstract_render (e : Record) (ts : String) :
    docxAbstract (generate_word_report e ts).1 = absDoc e := by
  show docxAbstract
      ( [ DocxElem.heading "Experiment Report" 1
        , DocxElem.table "LightShading-Accent1" ("Field", "Value") (identityFields e)
        , DocxElem.spacer ]
        ++ generate_word_report.add_list_section "Chemicals Used" e.chemicals false
        ++ generate_word_report.add_list_section "Equipment Used" e.equipment false
        ++ generate_word_report.add_list_section "Procedure" e.procedure true
        ++ generate_word_report.add_text_section "Observations" e.observations
        ++ generate_word_report.add_text_section "Results" e.results) = absDoc e
  rw [docxAbstract_append, docxAbstract_append, docxAbstract_append, docxAbstract_append,
    docxAbstract_append,
    docxAbstract_add_list_section, docxAbstract_add_list_section, docxAbstract_add_list_section,
    docxAbstract_add_text_section, docxAbstract_add_text_section]
  simp only [absDoc, identityAbs, identityFields, docxAbstract, absDocxElem, List.flatMap_cons,
    List.flatMap_nil, List.append_assoc, List.append_nil, List.nil_append]
  rfl

theorem mem_hcell_listSection (t title : String) (rows : List String) :
    AbsItem.hcell t ∈ listSection title rows ↔ t = title ∧ rows ≠ [] := by
  by_cases h : rows = [] <;> simp [listSection, h]

theorem mem_hcell_textSection (t title text : String) :
    AbsItem.hcell t ∈ textSection title text ↔ t = title ∧ text ≠ "" := by
  by_cases h : text = "" <;> simp [textSection, h]

theorem mem_hcell_identityAbs (t : String) (e : Record) :
    AbsItem.hcell t ∈ identityAbs e ↔ t = "Field" ∨ t = "Value" := by
  simp [identityAbs, identityFields]

theorem hcell_mem_absDoc (t : String) (e : Record) :
    AbsItem.hcell t ∈ absDoc e ↔
      (t = "Field" ∨ t = "Value"
       ∨ (t = "Chemicals Used" ∧ e.chemicals ≠ [])
       ∨ (t = "Equipment Used" ∧ e.equipment ≠ [])
       ∨ (t = "Procedure" ∧ e.procedure ≠ [])
       ∨ (t = "Observations" ∧ e.observations ≠ "")
       ∨ (t = "Results" ∧ e.results ≠ "")) := by
  simp [absDoc, mem_hcell_identityAbs, mem_hcell_listSection, mem_hcell_textSection,
    listRowTexts_eq_nil_iff, or_assoc]

/-- Claim C4. A rendered document contains a section header exactly when
the corresponding field is non-empty, in both output formats; and a
record whose list fields are empty and whose observations and results
are empty strings renders, in both formats, to exactly the Field/Value
identity section. -/
theorem render_section_presence (e : Record) (ts : String) :
    ((AbsItem.hcell "Chemicals Used" ∈ pdfAbstract (generate_pdf_report e ts).1
        ↔ e.chemicals ≠ [])
     ∧ (AbsItem.hcell "Equipment Used" ∈ pdfAbstract (generate_pdf_report e ts).1
        ↔ e.equipment ≠ [])
     ∧ (AbsItem.hcell "Procedure" ∈ pdfAbstract (generate_pdf_report e ts).1
        ↔ e.procedure ≠ [])
     ∧ (AbsItem.hcell "Observations" ∈ pdfAbstract (generate_pdf_report e ts).1
        ↔ e.observations ≠ "")
     ∧ (AbsItem.hcell "Results" ∈ pdfAbstract (generate_pdf_report e ts).1
        ↔ e.results ≠ ""))
    ∧ ((AbsItem.hcell "Chemicals Used" ∈ docxAbstract (generate_word_report e ts).1
        ↔ e.chemicals ≠ [])
     ∧ (AbsItem.hcell "Equipment Used" ∈ docxAbstract (generate_word_report e ts).1
        ↔ e.equipment ≠ [])
     ∧ (AbsItem.hcell "Procedure" ∈ docxAbstract (generate_word_report e ts).1
        ↔ e.procedure ≠ [])
     ∧ (AbsItem.hcell "Observations" ∈ docxAbstract (generate_word_report e ts).1
        ↔ e.observations ≠ "")
     ∧ (AbsItem.hcell "Results" ∈ docxAbstract (generate_word_report e ts).1
        ↔ e.results ≠ ""))
    ∧ (e.chemicals = [] → e.equipment = [] → e.procedure = [] →
        e.observations = "" → e.results = "" →
        pdfAbstract (generate_pdf_report e ts).1 = identityAbs e
        ∧ docxAbstract (generate_word_report e ts).1 = identityAbs e) := by
  rw [pdfAbstract_render, docxAbstract_render]
  refine ⟨⟨?_, ?_, ?_, ?_, ?_⟩, ⟨?_, ?_, ?_, ?_, ?_⟩, ?_⟩
  · rw [hcell_mem_absDoc]; simp
  · rw [hcell_mem_absDoc]; simp
  · rw [hcell_mem_absDoc]; simp
  · rw [hcell_mem_absDoc]; simp
  · rw [hcell_mem_absDoc]; simp
  · rw [hcell_mem_absDoc]; simp
  · rw [hcell_mem_absDoc]; simp
  · rw [hcell_mem_absDoc]; simp
  · rw [hcell_mem_absDoc]; simp
  · rw [hcell_mem_absDoc]; simp
  · intro h1 h2 h3 h4 h5
    constructor <;>
      simp [absDoc, h1, h2, h3, h4, h5, listRowTexts, listSection, textSection]

/-- Witness for C4: the all-empty record renders, in both formats, to
exactly the identity section. -/
theorem render_section_presence_witness :
    pdfAbstract (generate_pdf_report
        ⟨"T", "EXP-1", "d", "me", "p", [], [], [], "", ""⟩ "20250101000000").1
      = identityAbs ⟨"T", "EXP-1", "d", "me", "p", [], [], [], "", ""⟩
    ∧ docxAbstract (generate_word_report
        ⟨"T", "EXP-1", "d", "me", "p", [], [], [], "", ""⟩ "20250101000000").1
      = identityAbs ⟨"T", "EXP-1", "d", "me", "p", [], [], [], "", ""⟩ :=
  (render_section_presence ⟨"T", "EXP-1", "d", "me", "p", [], [], [], "", ""⟩
    "20250101000000").2.2 rfl rfl rfl rfl rfl

/-- Claim C5. With a non-empty procedure, both rendered documents carry a
Procedure section whose rows are the steps in insertion order, numbered
from 1 (`"<n>. "` texts, characterized row-by-row by the second
conjunct), while chemicals and equipment rows carry the bullet text
`"- <item>"`. -/
theorem procedure_numbering (e : Record) (ts : String) (hproc : e.procedure ≠ []) :
    (∃ pre post,
        pdfAbstract (generate_pdf_report e ts).1
          = pre ++ (AbsItem.hcell "Procedure"
              :: (listRowTexts true 1 e.procedure).map AbsItem.tcell) ++ post
        ∧ docxAbstract (generate_word_report e ts).1
          = pre ++ (AbsItem.hcell "Procedure"
              :: (listRowTexts true 1 e.procedure).map AbsItem.tcell) ++ post)
    ∧ (∀ j x, e.procedure[j]? = some x →
        (listRowTexts true 1 e.procedure)[j]? = some (toString (j + 1) ++ ". " ++ x))
    ∧ (listRowTexts true 1 e.procedure).length = e.procedure.length
    ∧ listRowTexts false 1 e.chemicals = e.chemicals.map (fun s => "- " ++ s)
    ∧ listRowTexts false 1 e.equipment = e.equipment.map (fun s => "- " ++ s) := by
  have hrows : listRowTexts true 1 e.procedure ≠ [] := by
    simpa [listRowTexts_eq_nil_iff] using hproc
  refine ⟨?_, ?_, listRowTexts_length true 1 e.procedure,
    listRowTexts_false_eq 1 e.chemicals, listRowTexts_false_eq 1 e.equipment⟩
  · refine ⟨identityAbs e
        ++ listSection "Chemicals Used" (listRowTexts false 1 e.chemicals)
        ++ listSection "Equipment Used" (listRowTexts false 1 e.equipment),
      textSection "Observations" e.observations ++ textSection "Results" e.results, ?_, ?_⟩
    · rw [pdfAbstract_render]
      simp [absDoc, listSection, if_neg hrows]
    · rw [docxAbstract_render]
      simp [absDoc, listSection, if_neg hrows]
  · intro j x hx
    have h2 := listRowTexts_true_getElem e.procedure 1 j x hx
    rwa [show 1 + j = j + 1 from by omega] at h2

/-- Witness for C5 on a two-step procedure: the numbered row list of
`["Mix", "Heat"]` has the procedure's length. -/
theorem procedure_numbering_witness :
    ((["Mix", "Heat"] : List String) ≠ [])
    ∧ (listRowTexts true 1 ["Mix", "Heat"]).length = (["Mix", "Heat"] : List String).length :=
  ⟨by decide,
    (procedure_numbering ⟨"T", "i", "d", "x", "p", [], [], ["Mix", "Heat"], "", ""⟩
      "20250101000000" (by decide)).2.2.1⟩

/-- Claim C6. Refinement: for every record the PDF renderer and the Word
renderer produce the same abstract document structure — the same
sections in the same order, the same omission rule, and the same row
texts — after erasing format-specific styling. -/
theorem renderers_agree (e : Record) (ts : String) :
    pdfAbstract (generate_pdf_report e ts).1 = docxAbstract (generate_word_report e ts).1 := by
  rw [pdfAbstract_render, docxAbstract_render]

/-- Witness for C6 at a concrete record with a mix of empty and
non-empty fields. -/
theorem renderers_agree_witness :
    pdfAbstract (generate_pdf_report
        ⟨"T", "EXP-1", "d", "Jane", "P1", ["NaCl (5g)"], [], ["Mix", "Heat"], "clear", ""⟩
        "20250101000000").1
      = docxAbstract (generate_word_report
        ⟨"T", "EXP-1", "d", "Jane", "P1", ["NaCl (5g)"], [], ["Mix", "Heat"], "clear", ""⟩
        "20250101000000").1 :=
  renderers_agree
    ⟨"T", "EXP-1", "d", "Jane", "P1", ["NaCl (5g)"], [], ["Mix", "Heat"], "clear", ""⟩
    "20250101000000"

/-! Section: input collection and the orchestrator. -/

/-- A clock reading as returned by `datetime.datetime.now()`. A real
reading satisfies `year ≤ 9999`, `month ≤ 12`, `day ≤ 31`,
`hour ≤ 23`, `minute ≤ 59`, `second ≤ 59`; the theorems below assume
only the weaker bounds they need. -/
structure DateTime where
  year : Nat
  month : Nat
  day : Nat
  hour : Nat
  minute : Nat
  second : Nat
deriving DecidableEq, Repr

/-- A field zero-padded to two digits, as `strftime` prints `%m`, `%d`,
`%H`, `%M`, `%S` for their in-range values (all below 100). -/
def pad2 (n : Nat) : String :=
  String.mk [Nat.digitChar (n / 10), Nat.digitChar (n % 10)]

/-- A field zero-padded to four digits, as `strftime` prints `%Y` for
years up to 9999. -/
def pad4 (n : Nat) : String :=
  String.mk [Nat.digitChar (n / 1000), Nat.digitChar (n / 100 % 10),
    Nat.digitChar (n / 10 % 10), Nat.digitChar (n % 10)]

/-- Python `now.strftime('%Y%m%d%H%M%S')`: the 14-digit timestamp token. -/
def strftimeTimestamp (now : DateTime) : String :=
  pad4 now.year ++ pad2 now.month ++ pad2 now.day
    ++ pad2 now.hour ++ pad2 now.minute ++ pad2 now.second

/-- Python `str(now)`: the human-readable creation date (sub-second digits
omitted from the model; no claim depends on this string's format). -/
def dateString (now : DateTime) : String :=
  pad4 now.year ++ "-" ++ pad2 now.month ++ "-" ++ pad2 now.day ++ " "
    ++ pad2 now.hour ++ ":" ++ pad2 now.minute ++ ":" ++ pad2 now.second

/-- Function `get_experiment_details()`: consume, in the dict literal's
evaluation order, the title, experimenter and project responses, the
chemicals loop (with amount details), the equipment and procedure loops,
and the observations and results responses; return the experiment
record together with the timestamp used for `experiment_id` and the
rest of the stream. `none` models the stream running dry mid-prompt
(where the real `input()` would block). -/
def get_experiment_details (now : DateTime) (stream : List String) :
    Option (Record × String × List String) :=
  match stream with
  | t :: er :: pr :: rest =>
    match get_input_list true rest with
    | none => none
    | some (chems, r1) =>
      match get_input_list false r1 with
      | none => none
      | some (equip, r2) =>
        match get_input_list false r2 with
        | none => none
        | some (steps, r3) =>
          match r3 with
          | obs :: res :: r4 =>
            some ( { title := t
                   , experiment_id := "EXP-" ++ strftimeTimestamp now
                   , date := dateString now
                   , experimenter := er
                   , project := pr
                   , chemicals := chems
                   , equipment := equip
                   , procedure := steps
                   , observations := obs
                   , results := res }
                 , strftimeTimestamp now, r4)
          | _ => none
  | _ => none

/-- The six steps of `log_experiment`, in source order. -/
inductive Step where
  | collect
  | loadLog
  | appendRecord
  | saveLog
  | renderPdf
  | renderWord
deriving DecidableEq, Repr

def stepOrder : List Step :=
  [Step.collect, Step.loadLog, Step.appendRecord, Step.saveLog,
   Step.renderPdf, Step.renderWord]

/-- The observable outcome of one `log_experiment()` run: the file
system, the steps that completed, the report files written, and whether
the run finished without an uncaught exception. -/
structure RunState where
  fs : FS
  executed : List Step
  pdfFile : Option String
  docxFile : Option String
  ok : Bool

/-- Function `log_experiment()`: collect, load the log, append the new record,
save the log, render the PDF, render the Word document — in that
order, with no branching and nothing caught. The oracle
`fails : Step → Bool` marks the steps at which the underlying library
raises; the run stops at the first failing step with all earlier
effects kept (an exhausted input stream is likewise a failure of the
collect step). -/
def log_experiment (now : DateTime) (stream : List String)
    (fails : Step → Bool) (fs : FS) : RunState :=
  if fails Step.collect then ⟨fs, [], none, none, false⟩ else
  match get_experiment_details now stream with
  | none => ⟨fs, [], none, none, false⟩
  | some (experiment, timestamp, _) =>
    if fails Step.loadLog then ⟨fs, [Step.collect], none, none, false⟩ else
    let experiments := load_experiments "experiment_log.json" fs
    if fails Step.appendRecord then
      ⟨fs, [Step.collect, Step.loadLog], none, none, false⟩ else
    let experiments2 := experiments ++ [encodeRecord experiment]
    if fails Step.saveLog then
      ⟨fs, [Step.collect, Step.loadLog, Step.appendRecord], none, none, false⟩ else
    let fs2 := save_experiments experiments2 "experiment_log.json" fs
    if fails Step.renderPdf then
      ⟨fs2, [Step.collect, Step.loadLog, Step.appendRecord, Step.saveLog],
        none, none, false⟩ else
    let pdfName := (generate_pdf_report experiment timestamp).2
    if fails Step.renderWord then
      ⟨fs2, [Step.collect, Step.loadLog, Step.appendRecord, Step.saveLog, Step.renderPdf],
        some pdfName, none, false⟩ else
    ⟨fs2, stepOrder, some pdfName,
      some (generate_word_report experiment timestamp).2, true⟩

theorem get_experiment_details_inv (now : DateTime) (stream : List String)
    (e : Record) (ts : String) (rest : List String)
    (h : get_experiment_details now stream = some (e, ts, rest)) :
    ts = strftimeTimestamp now ∧ e.experiment_id = "EXP-" ++ strftimeTimestamp now := by
  rcases stream with - | ⟨t, sr⟩
  · simp [get_experiment_details] at h
  rcases sr with - | ⟨er, sr2⟩
  · simp [get_experiment_details] at h
  rcases sr2 with - | ⟨pr, rest0⟩
  · simp [get_experiment_details] at h
  simp only [get_experiment_details] at h
  split at h
  · simp at h
  · split at h
    · simp at h
    · split at h
      · simp at h
      · split at h
        · simp only [Option.some.injEq, Prod.mk.injEq] at h
          obtain ⟨he, hts, -⟩ := h
          exact ⟨hts.symm, by rw [← he]⟩
        · simp at h

/-- Claim C7. The orchestrator attempts the six steps in the fixed order
collect, load log, append record, save log, render PDF, render Word:
the executed steps are always the longest non-failing initial run of
that order (so a failure aborts every remaining step); and whenever the
first four steps succeed, the log file already holds the appended
record no matter whether either rendering step fails. -/
theorem orchestrator_order (now : DateTime) (stream : List String)
    (fails : Step → Bool) (fs : FS)
    (hwf : ∃ out, get_experiment_details now stream = some out) :
    (log_experiment now stream fails fs).executed
        = stepOrder.takeWhile (fun s => !fails s)
    ∧ (fails Step.collect = false → fails Step.loadLog = false →
       fails Step.appendRecord = false → fails Step.saveLog = false →
       ∀ e ts rest, get_experiment_details now stream = some (e, ts, rest) →
        (log_experiment now stream fails fs).fs "experiment_log.json"
          = FileContent.content (Json.arr
              (load_experiments "experiment_log.json" fs ++ [encodeRecord e]))) := by
  obtain ⟨⟨e0, ts0, rest0⟩, h0⟩ := hwf
  constructor
  · cases hc : fails Step.collect with
    | true => simp [log_experiment, hc, stepOrder, List.takeWhile_cons]
    | false =>
      cases hl : fails Step.loadLog with
      | true => simp [log_experiment, h0, hc, hl, stepOrder, List.takeWhile_cons]
      | false =>
        cases ha : fails Step.appendRecord with
        | true => simp [log_experiment, h0, hc, hl, ha, stepOrder, List.takeWhile_cons]
        | false =>
          cases hs : fails Step.saveLog with
          | true => simp [log_experiment, h0, hc, hl, ha, hs, stepOrder, List.takeWhile_cons]
          | false =>
            cases hp : fails Step.renderPdf with
            | true =>
              simp [log_experiment, h0, hc, hl, ha, hs, hp, stepOrder, List.takeWhile_cons]
            | false =>
              cases hw : fails Step.renderWord with
              | true =>
                simp [log_experiment, h0, hc, hl, ha, hs, hp, hw, stepOrder,
                  List.takeWhile_cons]
              | false =>
                simp [log_experiment, h0, hc, hl, ha, hs, hp, hw, stepOrder,
                  List.takeWhile_cons]
  · intro h1 h2 h3 h4 e ts rest hc
    cases hp : fails Step.renderPdf with
    | true => simp [log_experiment, h1, h2, h3, h4, hp, hc, save_experiments]
    | false =>
      cases hw : fails Step.renderWord with
      | true => simp [log_experiment, h1, h2, h3, h4, hp, hw, hc, save_experiments]
      | false => simp [log_experiment, h1, h2, h3, h4, hp, hw, hc, save_experiments]

/-- Witness for C7: a failure-free run on a well-formed stream executes
all six steps in order. -/
theorem orchestrator_order_witness :
    (∃ out, get_experiment_details ⟨2025, 3, 7, 14, 30, 45⟩
        ["T", "Jane", "P1", "", "", "", "obs", "res"] = some out)
    ∧ (log_experiment ⟨2025, 3, 7, 14, 30, 45⟩ ["T", "Jane", "P1", "", "", "", "obs", "res"]
        (fun _ => false) (fun _ => FileContent.missing)).executed
      = stepOrder.takeWhile (fun s => !(fun _ : Step => false) s) :=
  ⟨⟨_, rfl⟩,
    (orchestrator_order ⟨2025, 3, 7, 14, 30, 45⟩ ["T", "Jane", "P1", "", "", "", "obs", "res"]
      (fun _ => false) (fun _ => FileContent.missing) ⟨_, rfl⟩).1⟩

/-- Claim C8. The log saved by a run is the loaded prior log with exactly
the new record appended at the end: same earlier entries at the same
positions, length one greater — the system never updates or deletes an
existing record. -/
theorem log_append_only (now : DateTime) (stream : List String)
    (fails : Step → Bool) (fs : FS) (e : Record) (ts : String) (rest : List String)
    (hc : get_experiment_details now stream = some (e, ts, rest))
    (h1 : fails Step.collect = false) (h2 : fails Step.loadLog = false)
    (h3 : fails Step.appendRecord = false) (h4 : fails Step.saveLog = false) :
    load_experiments "experiment_log.json" (log_experiment now stream fails fs).fs
      = load_experiments "experiment_log.json" fs ++ [encodeRecord e]
    ∧ (load_experiments "experiment_log.json" (log_experiment now stream fails fs).fs).length
      = (load_experiments "experiment_log.json" fs).length + 1
    ∧ ∀ i, i < (load_experiments "experiment_log.json" fs).length →
        (load_experiments "experiment_log.json" (log_experiment now stream fails fs).fs)[i]?
          = (load_experiments "experiment_log.json" fs)[i]? := by
  have hfs : load_experiments "experiment_log.json" (log_experiment now stream fails fs).fs
      = load_experiments "experiment_log.json" fs ++ [encodeRecord e] := by
    cases hp : fails Step.renderPdf with
    | true => simp [log_experiment, h1, h2, h3, h4, hp, hc, load_save]
    | false =>
      cases hw : fails Step.renderWord with
      | true => simp [log_experiment, h1, h2, h3, h4, hp, hw, hc, load_save]
      | false => simp [log_experiment, h1, h2, h3, h4, hp, hw, hc, load_save]
  refine ⟨hfs, by rw [hfs]; simp, ?_⟩
  intro i hi
  rw [hfs, List.getElem?_append, if_pos hi]

/-- Witness for C8: on an empty prior log the run saves a
single-record log holding exactly the collected record. -/
theorem log_append_only_witness :
    get_experiment_details ⟨2025, 3, 7, 14, 30, 45⟩ ["T", "Jane", "P1", "", "", "", "obs", "res"]
      = some (⟨"T", "EXP-20250307143045", "2025-03-07 14:30:45", "Jane", "P1",
          [], [], [], "obs", "res"⟩, "20250307143045", [])
    ∧ load_experiments "experiment_log.json"
        (log_experiment ⟨2025, 3, 7, 14, 30, 45⟩ ["T", "Jane", "P1", "", "", "", "obs", "res"]
          (fun _ => false) (fun _ => FileContent.missing)).fs
      = load_experiments "experiment_log.json" (fun _ => FileContent.missing)
        ++ [encodeRecord ⟨"T", "EXP-20250307143045", "2025-03-07 14:30:45", "Jane", "P1",
            [], [], [], "obs", "res"⟩] :=
  ⟨by decide,
    (log_append_only ⟨2025, 3, 7, 14, 30, 45⟩ ["T", "Jane", "P1", "", "", "", "obs", "res"]
      (fun _ => false) (fun _ => FileContent.missing)
      ⟨"T", "EXP-20250307143045", "2025-03-07 14:30:45", "Jane", "P1",
        [], [], [], "obs", "res"⟩ "20250307143045" []
      (by decide) rfl rfl rfl rfl).1⟩

theorem digitChar_isDigit (n : Nat) (h : n < 10) : (Nat.digitChar n).isDigit := by
  interval_cases n <;> decide

theorem pad2_length (n : Nat) : (pad2 n).length = 2 := rfl

theorem pad4_length (n : Nat) : (pad4 n).length = 4 := rfl

theorem pad2_data (n : Nat) :
    (pad2 n).data = [Nat.digitChar (n / 10), Nat.digitChar (n % 10)] := rfl

theorem pad4_data (n : Nat) :
    (pad4 n).data = [Nat.digitChar (n / 1000), Nat.digitChar (n / 100 % 10),
      Nat.digitChar (n / 10 % 10), Nat.digitChar (n % 10)] := rfl

theorem pad2_digits (n : Nat) (h : n ≤ 99) : ∀ c ∈ (pad2 n).data, c.isDigit := by
  intro c hc
  rw [pad2_data] at hc
  simp only [List.mem_cons, List.not_mem_nil, or_false] at hc
  rcases hc with rfl | rfl
  · exact digitChar_isDigit _ (Nat.div_lt_of_lt_mul (by omega))
  · exact digitChar_isDigit _ (Nat.mod_lt _ (by omega))

theorem pad4_digits (n : Nat) (h : n ≤ 9999) : ∀ c ∈ (pad4 n).data, c.isDigit := by
  intro c hc
  rw [pad4_data] at hc
  simp only [List.mem_cons, List.not_mem_nil, or_false] at hc
  rcases hc with rfl | rfl | rfl | rfl
  · exact digitChar_isDigit _ (Nat.div_lt_of_lt_mul (by omega))
  · exact digitChar_isDigit _ (Nat.mod_lt _ (by omega))
  · exact digitChar_isDigit _ (Nat.mod_lt _ (by omega))
  · exact digitChar_isDigit _ (Nat.mod_lt _ (by omega))

theorem strftimeTimestamp_spec (now : DateTime)
    (hy : now.year ≤ 9999) (hmo : now.month ≤ 99) (hd : now.day ≤ 99)
    (hh : now.hour ≤ 99) (hmi : now.minute ≤ 99) (hs : now.second ≤ 99) :
    (strftimeTimestamp now).length = 14
    ∧ ∀ c ∈ (strftimeTimestamp now).data, c.isDigit := by
  constructor
  · simp [strftimeTimestamp, String.length_append, pad2_length, pad4_length]
  · intro c hc
    simp only [strftimeTimestamp, String.data_append, List.mem_append] at hc
    rcases hc with ((((hc | hc) | hc) | hc) | hc) | hc
    · exact pad4_digits now.year hy c hc
    · exact pad2_digits now.month hmo c hc
    · exact pad2_digits now.day hd c hc
    · exact pad2_digits now.hour hh c hc
    · exact pad2_digits now.minute hmi c hc
    · exact pad2_digits now.second hs c hc

/-- Claim C9. In a run, the record's `experiment_id` is `"EXP-"` followed
by the very timestamp token returned by `get_experiment_details`, both
report files are named `experiment_report_<that token>.pdf` and
`.docx` (the token is passed along, never re-derived), and on an
in-range clock reading the token is 14 digits long and all-digit. -/
theorem report_filenames (now : DateTime) (stream : List String)
    (fails : Step → Bool) (fs : FS) (e : Record) (ts : String) (rest : List String)
    (hc : get_experiment_details now stream = some (e, ts, rest))
    (hall : ∀ s, fails s = false)
    (hy : now.year ≤ 9999) (hmo : now.month ≤ 99) (hd : now.day ≤ 99)
    (hh : now.hour ≤ 99) (hmi : now.minute ≤ 99) (hs : now.second ≤ 99) :
    e.experiment_id = "EXP-" ++ ts
    ∧ (log_experiment now stream fails fs).pdfFile
        = some ("experiment_report_" ++ ts ++ ".pdf")
    ∧ (log_experiment now stream fails fs).docxFile
        = some ("experiment_report_" ++ ts ++ ".docx")
    ∧ ts.length = 14
    ∧ ∀ c ∈ ts.data, c.isDigit := by
  obtain ⟨hts, hid⟩ := get_experiment_details_inv now stream e ts rest hc
  subst hts
  refine ⟨hid, ?_, ?_, (strftimeTimestamp_spec now hy hmo hd hh hmi hs).1,
    (strftimeTimestamp_spec now hy hmo hd hh hmi hs).2⟩
  · simp [log_experiment, hall, hc, generate_pdf_report]
  · simp [log_experiment, hall, hc, generate_word_report]

/-- Witness for C9: the failure-free run at the clock reading
2025-03-07 14:30:45 names the PDF with the same token as the
experiment id. -/
theorem report_filenames_witness :
    (log_experiment ⟨2025, 3, 7, 14, 30, 45⟩ ["T", "Jane", "P1", "", "", "", "obs", "res"]
        (fun _ => false) (fun _ => FileContent.missing)).pdfFile
      = some ("experiment_report_" ++ "20250307143045" ++ ".pdf") :=
  (report_filenames ⟨2025, 3, 7, 14, 30, 45⟩ ["T", "Jane", "P1", "", "", "", "obs", "res"]
    (fun _ => false) (fun _ => FileContent.missing)
    ⟨"T", "EXP-20250307143045", "2025-03-07 14:30:45", "Jane", "P1",
      [], [], [], "obs", "res"⟩ "20250307143045" []
    (by decide) (fun _ => rfl)
    (by decide) (by decide) (by decide) (by decide) (by decide) (by decide)).2.1

end ExperimentNotebook
